import Mathlib

/-!
Shallow embedding of `src/main.py` (soft-auto), the browser-automation tool
whose core is a resilient click engine (`hard_click`), a multi-selector
race-wait (`wait_for_any_visible`), a step workflow (`run_once`) and a
worker loop (`runner_task`).

Modelling conventions:
* Time is modelled in milliseconds as `Nat`.  A `wait_for_selector` call on a
  selector that is not visible consumes its full timeout (`POLL_MS`); finding
  a visible element and a successful interaction are modelled as instantaneous.
  Every `asyncio.sleep(POLL_MS / 1000)` consumes `POLL_MS`.
* Page behaviour is an oracle (`ClickEnv`): which selector is visible at which
  time, and which click strategy succeeds on which selector at which time.
* Python exceptions are values.  `asyncio.CancelledError` derives from
  `BaseException` (not `Exception`) on the Python version this source needs
  (PEP 604 annotations, so >= 3.10); the embedding keeps track of which
  modelled errors an `except Exception` clause catches.
-/

namespace SoftAuto

/-! ## Global constants (src/main.py lines 23-28) -/

/-- `MAX_WAIT = 8000` ms, per-step click timeout. -/
def MAX_WAIT : Nat := 8000

/-- `POLL_MS = 100` ms, element polling interval. -/
def POLL_MS : Nat := 100

/-- `MAX_FIND_SEC = 60` s, per-element overall deadline of `hard_click`. -/
def MAX_FIND_SEC : Nat := 60

/-- The `hard_click` deadline expressed in ms (`time.time() + MAX_FIND_SEC`). -/
def MAX_FIND_MS : Nat := MAX_FIND_SEC * 1000

/-! ## Interaction-engine oracle -/

/-- Modelled errors produced inside `hard_click`:
`timeout sel` is the `PlaywrightTimeout` raised by
`page.wait_for_selector(sel, timeout=POLL_MS, state="visible")`;
`clickFail sel i` is the exception stored in `last_err` by click strategy
number `i` on selector `sel`. -/
inductive PErr where
  | timeout (sel : String)
  | clickFail (sel : String) (strategy : Nat)
deriving DecidableEq, Repr

/-- Oracle describing the page as the interaction engine observes it.
`visible sel t` : a visible element matches `sel` at time `t`.
`strat sel i t` : click strategy `i` succeeds on the element found for `sel`
at time `t` (strategy numbering below).
`hasBox sel t`  : `el.bounding_box()` returns a box (strategy 3 is attempted
only in that case, src/main.py lines 107-128). -/
structure ClickEnv where
  visible : String → Nat → Bool
  strat : String → Nat → Nat → Bool
  hasBox : String → Nat → Bool

/-- Fixed strategy order of `hard_click` (src/main.py lines 88-147):
0 = `el.click(force=True)`, 1 = `el.click(force=False)`,
2 = `el.dblclick()` (only when `double`),
3 = human-like mouse move/down/up (only when a bounding box exists),
4 = `page.click(sel, force=True)`, 5 = JS dispatch click. -/
def stratIdxs (double hasBox : Bool) : List Nat :=
  [0, 1] ++ (if double then [2] else []) ++ (if hasBox then [3] else []) ++ [4, 5]

/-- First strategy in the given order that succeeds, mirroring the
early-`return` on the first successful strategy. -/
def firstSuccess (env : ClickEnv) (sel : String) (t : Nat) : List Nat → Option Nat
  | [] => none
  | i :: rest => if env.strat sel i t then some i else firstSuccess env sel t rest

/-- Terminal event of a `hard_click` call: either a click happened via
selector `sel` and strategy `strategy` at time `t`, or the deadline elapsed
and line 157 raised `last_err or RuntimeError(...)` at time `t`. -/
inductive ClickOutcome where
  | clicked (sel : String) (strategy : Nat) (t : Nat)
  | unreachable (lastErr : Option PErr) (t : Nat)
deriving DecidableEq, Repr

/-- One pass of the `for sel in selectors` loop (src/main.py lines 75-155),
threading the clock and `last_err`.  An invisible selector costs
`POLL_MS` (the `wait_for_selector` timeout) plus `POLL_MS` (the
`asyncio.sleep` in the `except` handler before `continue`).  A visible
selector runs the strategy chain; if some strategy succeeds the call
returns at once, otherwise `last_err` holds the failure of the last
strategy (5, the JS click) and the loop moves to the next selector
without sleeping. -/
def runPass (env : ClickEnv) (double : Bool) :
    List String → Nat → Option PErr → ClickOutcome ⊕ (Nat × Option PErr)
  | [], t, le => Sum.inr (t, le)
  | sel :: rest, t, _le =>
    if env.visible sel t then
      match firstSuccess env sel t (stratIdxs double (env.hasBox sel t)) with
      | some i => Sum.inl (ClickOutcome.clicked sel i t)
      | none => runPass env double rest t (some (PErr.clickFail sel 5))
    else
      runPass env double rest (t + (POLL_MS + POLL_MS)) (some (PErr.timeout sel))

/-- The outer `while time.time() < deadline` loop of `hard_click`
(src/main.py lines 74-157).  `fuel` bounds the number of passes so the
definition is total (`none` = fuel ran out before the loop finished);
theorems supply enough fuel for the deadline to be reached.  After a
full pass the loop sleeps one extra `POLL_MS` (line 156) before
re-checking the deadline. -/
def hardClickLoop (env : ClickEnv) (double : Bool) (selectors : List String)
    (deadline : Nat) : Nat → Nat → Option PErr → Option ClickOutcome
  | 0, t, le => if deadline ≤ t then some (ClickOutcome.unreachable le t) else none
  | fuel + 1, t, le =>
    if deadline ≤ t then
      some (ClickOutcome.unreachable le t)
    else
      match runPass env double selectors t le with
      | Sum.inl r => some r
      | Sum.inr (t', le') => hardClickLoop env double selectors deadline fuel (t' + POLL_MS) le'

/-- `hard_click(page, selector, description, many_selectors, double)`
(src/main.py lines 61-157): the selector list is the primary selector
followed by the fallbacks, the deadline is `t0 + MAX_FIND_SEC` (in ms),
and `last_err` starts as `None`. -/
def hard_click (env : ClickEnv) (selector : String) (many : List String)
    (double : Bool) (t0 fuel : Nat) : Option ClickOutcome :=
  hardClickLoop env double (selector :: many) (t0 + MAX_FIND_MS) fuel t0 none

/-- Inner scan of `wait_for_any_visible`: the first selector of the group, in
enumeration order, that is visible at the poll time; each miss costs the
`POLL_MS` find timeout. -/
def findVisible (env : ClickEnv) : List String → Nat → Option (String × Nat)
  | [], _ => none
  | sel :: rest, t =>
    if env.visible sel t then some (sel, t) else findVisible env rest (t + POLL_MS)

/-- `wait_for_any_visible(page, selectors, max_seconds)`: poll the group
every `POLL_MS` until one selector is visible (returning that selector)
or the deadline elapses (returning `none`).  Fuel-bounded as above. -/
def wait_for_any_visible (env : ClickEnv) (selectors : List String)
    (deadline : Nat) : Nat → Nat → Option (Option String)
  | fuel, t =>
    if deadline ≤ t then some none
    else
      match fuel with
      | 0 => none
      | fuel' + 1 =>
        match findVisible env selectors t with
        | some (sel, _) => some (some sel)
        | none =>
          wait_for_any_visible env selectors deadline fuel'
            (t + selectors.length * POLL_MS + POLL_MS)

/-- Outcome of the step-5 race block (src/main.py lines 466-511) as the
workflow observes it.
`fastPath sel` / `verifyPath sel`: the corresponding branch is taken and
`sel` is clicked next.  `branchUndetermined g s5` is the
`RuntimeError("Neither step 5 nor step 8 clickable...")` of line 511
carrying both tasks results.  `cancelledEscape` models the
`asyncio.CancelledError` raised by calling `.result()` on the loser task
that was cancelled while still pending (lines 503-510): it is not an
`Exception`, so the `except Exception` handlers never catch it. -/
inductive BranchOutcome where
  | fastPath (sel : String)
  | verifyPath (sel : String)
  | branchUndetermined (g s5 : Option String)
  | cancelledEscape
deriving DecidableEq, Repr

/-- Decision logic after `asyncio.wait({get_task, step5_task},
return_when=FIRST_COMPLETED)` (src/main.py lines 469-511).
`gRes` / `s5Res` are the values the two `wait_for_any_visible` tasks end
with (`none` = their deadline elapsed), `tg` / `ts` the event-loop wake
at which each task finishes.  When `tg = ts` both tasks finish in the
same wake, so both are in `done` and `pending` is empty;
`getFirstInDone` says which one `next(iter(done))` yields from the
2-element Python set (set iteration order, unspecified).  When the wakes
differ, `done` holds only the earlier task, the other is cancelled while
pending, and calling `.result()` on it raises `asyncio.CancelledError`,
which the `except Exception as e` on lines 505/508 does not catch. -/
def raceDecision (gRes s5Res : Option String) (tg ts : Nat)
    (getFirstInDone : Bool) : BranchOutcome :=
  if tg < ts then
    match gRes with
    | some s => BranchOutcome.fastPath s
    | none => BranchOutcome.cancelledEscape
  else if ts < tg then
    match s5Res with
    | some s => BranchOutcome.verifyPath s
    | none => BranchOutcome.cancelledEscape
  else
    if getFirstInDone then
      match gRes with
      | some s => BranchOutcome.fastPath s
      | none => BranchOutcome.branchUndetermined gRes s5Res
    else
      match s5Res with
      | some s => BranchOutcome.verifyPath s
      | none => BranchOutcome.branchUndetermined gRes s5Res

/-! ## Workflow state machine (`run_once`, src/main.py lines 228-577) -/

/-- One `StepResult` dataclass instance (src/main.py lines 31-35). -/
structure StepResult where
  step : String
  status : String
  detail : String := ""
deriving DecidableEq, Repr

/-- Errors a run can end with, at the granularity `runner_task` observes.
`launchError`: both `p.chromium.launch` attempts failed (lines 238-299).
`contextError`: context / init-script / page / route setup failed
(lines 301-389).  `navError`: `page.goto` failed (line 392).
`clickError desc e`: the `hard_click` call labelled `desc` raised `e`.
`branchUndetermined g s5`: the line-511 `RuntimeError`.
`cancelledEscape`: the uncaught `asyncio.CancelledError` from the race
block; the only one of these that does not derive from `Exception`. -/
inductive RunErr where
  | launchError
  | contextError
  | navError
  | clickError (desc : String) (e : PErr)
  | branchUndetermined (g s5 : Option String)
  | cancelledEscape
deriving DecidableEq, Repr

/-- Whether a `RunErr` models an error deriving from Python `Exception`
(and is therefore caught by an `except Exception` clause).
`asyncio.CancelledError` derives only from `BaseException`. -/
def isExceptionDerived : RunErr → Bool
  | RunErr.cancelledEscape => false
  | _ => true

/-- `str(e)` of a modelled error, as stored into `state.last_detail`. -/
def errMsg : RunErr → String
  | RunErr.launchError => "browser launch failed"
  | RunErr.contextError => "context setup failed"
  | RunErr.navError => "navigation failed"
  | RunErr.clickError d (PErr.timeout sel) => "Timeout waiting for " ++ sel ++ " (" ++ d ++ ")"
  | RunErr.clickError d (PErr.clickFail sel _) => "click failed on " ++ sel ++ " (" ++ d ++ ")"
  | RunErr.branchUndetermined _ _ => "Neither step 5 nor step 8 clickable at this time"
  | RunErr.cancelledEscape => "CancelledError"

/-- Oracle for one `run_once` call: the outcome of every external
interaction, in program order.  Each `Option PErr` field is the outcome
of the corresponding `hard_click` call (`none` = the click succeeded,
`some e` = the call raised `e`).  `gRes`/`s5Res`/`tg`/`ts`/`doneOrder`
describe the step-5 race as in `raceDecision`. -/
structure WorkflowEnv where
  url : String
  launchOk : Bool
  contextOk : Bool
  gotoOk : Bool
  step2 : Option PErr
  step3 : Option PErr
  step4 : Option PErr
  gRes : Option String
  s5Res : Option String
  tg : Nat
  ts : Nat
  doneOrder : Bool
  fastClick : Option PErr
  step5 : Option PErr
  step6 : Option PErr
  step7 : Option PErr
  step8 : Option PErr
deriving Repr

/-- The `StepResult("Done", "OK", f"Elapsed: ...")` the `finally` block
appends to `results` (src/main.py line 577).  Because `results` is the
very list object being returned, the appended entry is part of the
returned sequence on every successful run.  The elapsed-seconds text is
abstracted. -/
def doneEntry : StepResult := { step := "Done", status := "OK", detail := "Elapsed" }

/-- `run_once(url, ...)` (src/main.py lines 228-577).  On success it
returns the accumulated `results` list, including the `finally`-appended
`doneEntry`.  On failure the exception propagates and the local
`results` list is dropped (it is not attached to the exception), so
the error constructor carries no step sequence.  Session teardown is
modelled separately by `run_once_traced`. -/
def run_once (env : WorkflowEnv) : Except RunErr (List StepResult) :=
  match env.launchOk, env.contextOk, env.gotoOk with
  | false, _, _ => Except.error RunErr.launchError
  | true, false, _ => Except.error RunErr.contextError
  | true, true, false => Except.error RunErr.navError
  | true, true, true =>
    let r1 := [StepResult.mk "Open URL" "OK" env.url]
    match env.step2 with
    | some e => Except.error (RunErr.clickError "human verification (mtc2)" e)
    | none =>
    let r2 := r1 ++ [StepResult.mk "Step 2" "OK" ""]
    match env.step3 with
    | some e => Except.error (RunErr.clickError "generate link (mtc2)" e)
    | none =>
    let r3 := r2 ++ [StepResult.mk "Step 3" "OK" ""]
    match env.step4 with
    | some e => Except.error (RunErr.clickError "download link (mtc2)" e)
    | none =>
    let r4 := r3 ++ [StepResult.mk "Step 4" "OK" ""]
    match raceDecision env.gRes env.s5Res env.tg env.ts env.doneOrder with
    | BranchOutcome.fastPath _ =>
      match env.fastClick with
      | some e => Except.error (RunErr.clickError "Get Link final" e)
      | none =>
        Except.ok (r4 ++
          [StepResult.mk "Step 5-8 fast path" "OK"
            "Get Link appeared first; waited 5s before click", doneEntry])
    | BranchOutcome.verifyPath _ =>
      match env.step5 with
      | some e => Except.error (RunErr.clickError "human verification (mtc1)" e)
      | none =>
      let r5 := r4 ++ [StepResult.mk "Step 5" "OK" ""]
      match env.step6 with
      | some e => Except.error (RunErr.clickError "generate link (mtc1)" e)
      | none =>
      let r6 := r5 ++ [StepResult.mk "Step 6" "OK" ""]
      match env.step7 with
      | some e => Except.error (RunErr.clickError "download link (mtc1)" e)
      | none =>
      let r7 := r6 ++ [StepResult.mk "Step 7" "OK" ""]
      match env.step8 with
      | some e => Except.error (RunErr.clickError "Get Link final" e)
      | none =>
        Except.ok (r7 ++
          [StepResult.mk "Step 8" "OK" "Waited 5s before click; 1s after click", doneEntry])
    | BranchOutcome.branchUndetermined g s5 => Except.error (RunErr.branchUndetermined g s5)
    | BranchOutcome.cancelledEscape => Except.error RunErr.cancelledEscape

/-! ## Session teardown (the `finally` block, src/main.py lines 569-577) -/

/-- Close operations issued by the `finally` block. -/
inductive CloseEvent where
  | closeContext
  | closeBrowser
deriving DecidableEq, BEq, Repr

/-- One `with contextlib.suppress(Exception): if h is not None: await h.close()`
block: the close is attempted exactly when the handle was opened, and the
`fails` flag (whether `close()` itself raises) is swallowed by `suppress`,
so it never affects what else runs.  The returned pair is (events emitted,
exception escaping the suppress block = never). -/
def closeAction (isOpen fails : Bool) (ev : CloseEvent) : List CloseEvent × Bool :=
  if isOpen then ([ev], fails) else ([], false)

/-- `contextlib.suppress(Exception)`: keep the events, drop the exception. -/
def suppressExc (a : List CloseEvent × Bool) : List CloseEvent := a.1

/-- The whole `finally` block: close the context (failure-tolerant), then the
browser (failure-tolerant).  The handles are open exactly when their setup
succeeded: `browser` after a successful launch, `context` after a
successful context setup (which requires the launch). -/
def runOnceCleanup (contextOpen browserOpen ctxCloseFails brCloseFails : Bool) :
    List CloseEvent :=
  suppressExc (closeAction contextOpen ctxCloseFails CloseEvent.closeContext) ++
  suppressExc (closeAction browserOpen brCloseFails CloseEvent.closeBrowser)

/-- `run_once` together with its teardown trace: the body result, and the
close events of the `finally` block, which Python runs on every exit path
(successful return, any raised `Exception`, and `CancelledError` alike). -/
def run_once_traced (env : WorkflowEnv) (ctxCloseFails brCloseFails : Bool) :
    Except RunErr (List StepResult) × List CloseEvent :=
  (run_once env,
   runOnceCleanup (env.launchOk && env.contextOk) env.launchOk ctxCloseFails brCloseFails)

/-! ## Worker loop (`runner_task`, src/main.py lines 635-659) -/

/-- The fields of `InstanceState` (src/main.py lines 38-49) that the claims
are about.  `current_step`, `started_at` and `last_duration` are purely
observational timestamps/labels updated throughout the run and are not
tracked. -/
structure WorkerState where
  runs : Nat := 0
  successes : Nat := 0
  failures : Nat := 0
  status : String := "idle"
  lastUrl : String := ""
  lastDetail : String := ""
deriving DecidableEq, Repr

/-- Result of one pass through the `while True` body of `runner_task`:
either the loop continues with the updated state, or an exception escaped
the `except Exception` clause and the worker task terminated. -/
inductive IterStep where
  | continued (st : WorkerState)
  | terminatedWorker (st : WorkerState)
deriving DecidableEq, Repr

/-- One iteration of `runner_task` (src/main.py lines 637-659), given the
outcome of its `run_once` call.  Mirrors the code: mark `running`, record
the url, then on success bump `runs`/`successes`, store the last result
detail and go `idle`; on a caught exception bump `runs`/`failures`, store
`str(e)` and mark `error/restarting`.  An error not deriving from
`Exception` (the race blocks `CancelledError`) is not caught: the
counters are untouched and the worker task ends. -/
def runnerIteration (st : WorkerState) (url : String)
    (out : Except RunErr (List StepResult)) : IterStep :=
  let st := { st with status := "running", lastUrl := url }
  match out with
  | Except.ok results =>
    IterStep.continued { st with
      runs := st.runs + 1
      successes := st.successes + 1
      lastDetail := ((results.getLast?).map StepResult.detail).getD ""
      status := "idle" }
  | Except.error e =>
    if isExceptionDerived e then
      IterStep.continued { st with
        runs := st.runs + 1
        failures := st.failures + 1
        status := "error/restarting"
        lastDetail := errMsg e }
    else
      IterStep.terminatedWorker st

/-! ## Concrete oracles and runs used by witnesses and counterexamples -/

/-- Page oracle on which only selector `"c"` is visible and only click
strategy 4 (`page.click(sel, force=True)`) succeeds on it. -/
def c8Env : ClickEnv :=
  ⟨fun s _ => s == "c", fun s i _ => s == "c" && i == 4, fun _ _ => false⟩

/-- Run oracle for a fully successful fast-path run: steps 2-4 succeed, the
"Get Link" watcher wins the race (wake 3 against 9), and the final click
succeeds. -/
def envFastOk : WorkflowEnv :=
  { url := "u", launchOk := true, contextOk := true, gotoOk := true,
    step2 := none, step3 := none, step4 := none,
    gRes := some "a.get-link", s5Res := none, tg := 3, ts := 9, doneOrder := true,
    fastClick := none, step5 := none, step6 := none, step7 := none, step8 := none }

/-- Run oracle for a fully successful verify-path run (Scenario A): every
click succeeds and the verification watcher wins the race. -/
def envFullOk : WorkflowEnv :=
  { envFastOk with gRes := none, s5Res := some "a#wpsafelinkhuman", tg := 9, ts := 3 }

/-- Run oracle where neither race group ever becomes visible and the two
watcher tasks finish in different event-loop wakes (600 and 601), so the
later one is cancelled while still pending. -/
def envNeitherSkew : WorkflowEnv :=
  { envFastOk with gRes := none, tg := 600, ts := 601 }

/-- Same as `envNeitherSkew` but both watcher tasks finish in the same wake,
so both are in `done` and neither is cancelled. -/
def envNeitherTie : WorkflowEnv :=
  { envFastOk with gRes := none, tg := 600, ts := 600 }

/-- The result list of a successful fast-path run: the four pre-race step
entries, the combined fast-path entry, and the `finally`-appended `Done`
entry. -/
def fastRunList (url : String) : List StepResult :=
  [⟨"Open URL", "OK", url⟩, ⟨"Step 2", "OK", ""⟩, ⟨"Step 3", "OK", ""⟩,
   ⟨"Step 4", "OK", ""⟩,
   ⟨"Step 5-8 fast path", "OK", "Get Link appeared first; waited 5s before click"⟩,
   doneEntry]

/-- The result list of a successful full-path run: the eight step entries
plus the `finally`-appended `Done` entry. -/
def fullRunList (url : String) : List StepResult :=
  [⟨"Open URL", "OK", url⟩, ⟨"Step 2", "OK", ""⟩, ⟨"Step 3", "OK", ""⟩,
   ⟨"Step 4", "OK", ""⟩, ⟨"Step 5", "OK", ""⟩, ⟨"Step 6", "OK", ""⟩,
   ⟨"Step 7", "OK", ""⟩,
   ⟨"Step 8", "OK", "Waited 5s before click; 1s after click"⟩, doneEntry]

/-! ## Lemmas about `hard_click` -/

/-- Value of `last_err` after scanning a list of selectors that all timed
out: the timeout of the last selector of the list (or the incoming value
for an empty list). -/
def lastErrList : List String → Option PErr → Option PErr
  | [], le => le
  | sel :: rest, _ => lastErrList rest (some (PErr.timeout sel))

theorem runPass_append_invisible (env : ClickEnv) (double : Bool)
    (pre : List String) (hpre : ∀ s ∈ pre, ∀ u, env.visible s u = false) :
    ∀ (rest : List String) (t : Nat) (le : Option PErr),
    runPass env double (pre ++ rest) t le =
      runPass env double rest (t + pre.length * (POLL_MS + POLL_MS)) (lastErrList pre le) := by
  induction pre with
  | nil => intro rest t le; simp [lastErrList]
  | cons s pre' ih =>
    intro rest t le
    rw [List.cons_append, runPass, hpre s (by simp)]
    simp only [Bool.false_eq_true, if_false]
    rw [ih (fun x hx u => hpre x (by simp [hx]) u)]
    have harith : t + (POLL_MS + POLL_MS) + pre'.length * (POLL_MS + POLL_MS) =
        t + (s :: pre').length * (POLL_MS + POLL_MS) := by
      simp [List.length_cons]
      ring
    rw [harith]
    rfl

/-- Decomposition delivered by a successful `firstSuccess` scan: the found
strategy succeeds and every strategy tried before it fails. -/
theorem firstSuccess_spec (env : ClickEnv) (sel : String) (t : Nat) :
    ∀ (l : List Nat) (i : Nat), firstSuccess env sel t l = some i →
    env.strat sel i t = true ∧
      ∃ l1 l2, l = l1 ++ i :: l2 ∧ ∀ j ∈ l1, env.strat sel j t = false := by
  intro l
  induction l with
  | nil => intro i h; simp [firstSuccess] at h
  | cons a rest ih =>
    intro i h
    rw [firstSuccess] at h
    by_cases ha : env.strat sel a t
    · rw [if_pos ha] at h
      obtain rfl : a = i := by injection h
      exact ⟨ha, [], rest, rfl, by simp⟩
    · rw [if_neg ha] at h
      obtain ⟨h1, l1, l2, rfl, h2⟩ := ih i h
      exact ⟨h1, a :: l1, l2, rfl, by
        intro j hj
        rcases List.mem_cons.mp hj with rfl | hj
        · exact Bool.not_eq_true _ ▸ by simpa using ha
        · exact h2 j hj⟩

/-- Claim C8 (confirmed): when only the N-th selector of the descriptor
list ever matches a visible element, `hard_click` clicks via exactly that
selector — the earlier, absent selectors only ever time out — and it
returns with the first strategy in the fixed strategy order that
succeeds: the reported strategy succeeds and every strategy ordered
before it fails. -/
theorem hard_click_nth_selector (env : ClickEnv) (sel : String)
    (many pre post : List String) (sN : String) (i0 : Nat) (double : Bool)
    (t0 fuel : Nat) (hL : sel :: many = pre ++ sN :: post)
    (hpre : ∀ s ∈ pre, ∀ u, env.visible s u = false)
    (hvis : ∀ u, env.visible sN u = true)
    (hstrat : ∀ u, firstSuccess env sN u (stratIdxs double (env.hasBox sN u)) = some i0)
    (hfuel : 0 < fuel) :
    hard_click env sel many double t0 fuel =
      some (ClickOutcome.clicked sN i0 (t0 + pre.length * (POLL_MS + POLL_MS))) ∧
    env.strat sN i0 (t0 + pre.length * (POLL_MS + POLL_MS)) = true ∧
    ∃ l1 l2,
      stratIdxs double (env.hasBox sN (t0 + pre.length * (POLL_MS + POLL_MS))) =
        l1 ++ i0 :: l2 ∧
      ∀ j ∈ l1, env.strat sN j (t0 + pre.length * (POLL_MS + POLL_MS)) = false := by
  obtain ⟨f, rfl⟩ : ∃ f, fuel = f + 1 := ⟨fuel - 1, by omega⟩
  set tN := t0 + pre.length * (POLL_MS + POLL_MS) with htN
  refine ⟨?_, ?_, ?_⟩
  · rw [hard_click, hL, hardClickLoop,
      if_neg (by simp only [MAX_FIND_MS, MAX_FIND_SEC]; omega)]
    rw [runPass_append_invisible env double pre hpre, runPass, hvis]
    simp only [if_true, hstrat]
  · exact (firstSuccess_spec env sN tN _ i0 (hstrat tN)).1
  · exact (firstSuccess_spec env sN tN _ i0 (hstrat tN)).2

/-- Witness for C8: on a page where only the third selector `"c"` is
visible and only strategy 4 works on it, the engine clicks `"c"` with
strategy 4 after the two earlier selectors timed out twice each. -/
theorem hard_click_nth_selector_witness :
    hard_click c8Env "a" ["b", "c"] false 0 5 =
      some (ClickOutcome.clicked "c" 4 (0 + (["a", "b"] : List String).length * (POLL_MS + POLL_MS))) ∧
    c8Env.strat "c" 4 (0 + (["a", "b"] : List String).length * (POLL_MS + POLL_MS)) = true ∧
    ∃ l1 l2,
      stratIdxs false (c8Env.hasBox "c" (0 + (["a", "b"] : List String).length * (POLL_MS + POLL_MS))) =
        l1 ++ 4 :: l2 ∧
      ∀ j ∈ l1, c8Env.strat "c" j (0 + (["a", "b"] : List String).length * (POLL_MS + POLL_MS)) = false :=
  hard_click_nth_selector c8Env "a" ["b", "c"] ["a", "b"] [] "c" 4 false 0 5
    rfl
    (by intro s hs u; simp only [List.mem_cons, List.mem_singleton] at hs
        rcases hs with rfl | rfl | hs
        · rfl
        · rfl
        · simp at hs)
    (fun _ => rfl) (fun _ => rfl) (by decide)

/-! ## Race-wait claims -/

/-- Claim C7 (amended): when both selector groups become visible in the same
event-loop wake, exactly one group is reported as winner — `fastPath`
with the get-link result when `next(iter(done))` yields the get-link task
first, `verifyPath` with the verification result otherwise — and the two
outcomes are mutually exclusive.  The tie-break is the iteration order of
the 2-element `done` set, not the enumeration order of the groups; the
losing wait has already completed (so there is nothing left to cancel),
and a completed visibility wait performs no click of its own. -/
theorem race_tie_single_winner (a b : String) (t : Nat) (ord : Bool) :
    raceDecision (some a) (some b) t t ord =
      (if ord then BranchOutcome.fastPath a else BranchOutcome.verifyPath b) ∧
    BranchOutcome.fastPath a ≠ BranchOutcome.verifyPath b := by
  constructor
  · cases ord <;> simp [raceDecision]
  · intro h
    exact BranchOutcome.noConfusion h

/-- Counterexample for C7: with both groups visible in the same wake, the two
possible iteration orders of the `done` set give different winners, so the
tie is not broken deterministically by enumeration order (which would
always pick the get-link group, created and listed first). -/
theorem race_tie_not_enumeration_order :
    raceDecision (some "a.get-link") (some "a#wpsafelinkhuman") 7 7 true =
      BranchOutcome.fastPath "a.get-link" ∧
    raceDecision (some "a.get-link") (some "a#wpsafelinkhuman") 7 7 false =
      BranchOutcome.verifyPath "a#wpsafelinkhuman" ∧
    BranchOutcome.verifyPath "a#wpsafelinkhuman" ≠
      BranchOutcome.fastPath "a.get-link" := by
  refine ⟨by decide, by decide, by decide⟩

/-- Claim C3: when neither group becomes visible before the race deadline the
code only produces the intended line-511 "branch undetermined"
`RuntimeError` if both watcher tasks happen to finish in the same
event-loop wake.  In the ordinary case the tasks finish in different
wakes, the later one is cancelled while pending, and `step5_task.result()`
(line 508) then raises `asyncio.CancelledError`, which the
`except Exception` clause does not catch — so a `CancelledError`, not the
branch-undetermined error, propagates as the run's failure. -/
theorem race_neither_visible_outcomes :
    run_once envNeitherSkew = Except.error RunErr.cancelledEscape ∧
    run_once envNeitherTie = Except.error (RunErr.branchUndetermined none none) ∧
    RunErr.cancelledEscape ≠ RunErr.branchUndetermined none none := by
  refine ⟨rfl, rfl, by decide⟩

/-! ## Workflow claims -/

/-- Claim C1 (amended): whenever the "Get Link" watcher wins the step-5
race, the step-6/7/8 clicks are never attempted — the run result is the
same whatever their outcomes would have been — and when the fast-path
click succeeds the run completes with exactly 6 StepResult entries: the
Open URL entry, the Step 2-4 entries produced before the race, the
combined fast-path entry, and the `Done` entry appended by the `finally`
block to the returned list. -/
theorem fastPath_skips_steps_6_7_8 (env : WorkflowEnv)
    (hl : env.launchOk = true) (hc : env.contextOk = true)
    (hg : env.gotoOk = true) (h2 : env.step2 = none) (h3 : env.step3 = none)
    (h4 : env.step4 = none)
    (hr : ∃ w, raceDecision env.gRes env.s5Res env.tg env.ts env.doneOrder =
      BranchOutcome.fastPath w) :
    (env.fastClick = none → ∀ e6 e7 e8,
      run_once { env with step6 := e6, step7 := e7, step8 := e8 } =
        Except.ok (fastRunList env.url)) ∧
    (∀ e, env.fastClick = some e → ∀ e6 e7 e8,
      run_once { env with step6 := e6, step7 := e7, step8 := e8 } =
        Except.error (RunErr.clickError "Get Link final" e)) ∧
    (fastRunList env.url).length = 6 := by
  obtain ⟨w, hw⟩ := hr
  obtain ⟨url, lOk, cOk, gOk, s2, s3, s4, gR, sR, tg, ts, ord, fc, s5, s6, s7, s8⟩ := env
  simp only at hl hc hg h2 h3 h4 hw ⊢
  subst hl hc hg h2 h3 h4
  refine ⟨?_, ?_, rfl⟩
  · intro hf e6 e7 e8
    subst hf
    simp [run_once, hw, fastRunList, doneEntry]
  · intro e hf e6 e7 e8
    subst hf
    simp [run_once, hw]

/-- Witness for C1: a concrete fast-path run in which the step-6/7/8 clicks
would all have failed still returns the 6-entry fast-path result — those
clicks are never attempted. -/
theorem fastPath_skips_steps_6_7_8_witness :
    run_once { envFastOk with
        step6 := some (PErr.timeout "x"), step7 := some (PErr.timeout "y"),
        step8 := some (PErr.timeout "z") } = Except.ok (fastRunList "u") ∧
    (fastRunList "u").length = 6 :=
  ⟨(fastPath_skips_steps_6_7_8 envFastOk rfl rfl rfl rfl rfl rfl
      ⟨"a.get-link", rfl⟩).1 rfl
      (some (PErr.timeout "x")) (some (PErr.timeout "y")) (some (PErr.timeout "z")),
   (fastPath_skips_steps_6_7_8 envFastOk rfl rfl rfl rfl rfl rfl
      ⟨"a.get-link", rfl⟩).2.2⟩

/-- Counterexample for C1: a fully successful fast-path run returns 6
StepResult entries, not 2 — the Step 2-4 entries precede the race and the
`finally` block appends a `Done` entry to the returned list. -/
theorem fastPath_run_not_two_entries :
    run_once envFastOk = Except.ok (fastRunList "u") ∧
    (fastRunList "u").length ≠ 2 := by
  refine ⟨rfl, by decide⟩

/-- Claim C2 (amended): a full verify-path run in which every resilient
click succeeds returns exactly 9 StepResult entries — the 8 step entries
plus the `Done` entry appended by the `finally` block — every one with
status `"OK"`, and the worker increments its success counter (and run
counter) by exactly 1. -/
theorem fullPath_nine_entries_all_ok (env : WorkflowEnv)
    (hl : env.launchOk = true) (hc : env.contextOk = true)
    (hg : env.gotoOk = true) (h2 : env.step2 = none) (h3 : env.step3 = none)
    (h4 : env.step4 = none)
    (hr : ∃ w, raceDecision env.gRes env.s5Res env.tg env.ts env.doneOrder =
      BranchOutcome.verifyPath w)
    (h5 : env.step5 = none) (h6 : env.step6 = none) (h7 : env.step7 = none)
    (h8 : env.step8 = none) :
    run_once env = Except.ok (fullRunList env.url) ∧
    (fullRunList env.url).length = 9 ∧
    (∀ r ∈ fullRunList env.url, r.status = "OK") ∧
    (∀ st : WorkerState, ∃ st',
      runnerIteration st env.url (run_once env) = IterStep.continued st' ∧
      st'.successes = st.successes + 1 ∧ st'.runs = st.runs + 1) := by
  obtain ⟨w, hw⟩ := hr
  obtain ⟨url, lOk, cOk, gOk, s2, s3, s4, gR, sR, tg, ts, ord, fc, s5, s6, s7, s8⟩ := env
  simp only at hl hc hg h2 h3 h4 h5 h6 h7 h8 hw ⊢
  subst hl hc hg h2 h3 h4 h5 h6 h7 h8
  have hrun : run_once (WorkflowEnv.mk url true true true none none none
      gR sR tg ts ord fc none none none none) = Except.ok (fullRunList url) := by
    simp [run_once, hw, fullRunList, doneEntry]
  refine ⟨hrun, rfl, ?_, ?_⟩
  · simp [fullRunList, doneEntry]
  · intro st
    rw [hrun]
    exact ⟨_, rfl, rfl, rfl⟩

/-- Witness for C2: the Scenario-A run oracle yields the 9-entry all-OK
result and bumps a fresh worker's success counter to 1. -/
theorem fullPath_nine_entries_all_ok_witness :
    run_once envFullOk = Except.ok (fullRunList "u") ∧
    (fullRunList "u").length = 9 ∧
    (∀ r ∈ fullRunList "u", r.status = "OK") ∧
    (∀ st : WorkerState, ∃ st',
      runnerIteration st "u" (run_once envFullOk) = IterStep.continued st' ∧
      st'.successes = st.successes + 1 ∧ st'.runs = st.runs + 1) :=
  fullPath_nine_entries_all_ok envFullOk rfl rfl rfl rfl rfl rfl
    ⟨"a#wpsafelinkhuman", rfl⟩ rfl rfl rfl rfl

/-- Counterexample for C2: the fully successful verify-path run returns 9
StepResult entries, not 8 — the `finally` block appends the `Done` entry
to the very list being returned. -/
theorem fullPath_run_not_eight_entries :
    run_once envFullOk = Except.ok (fullRunList "u") ∧
    (fullRunList "u").length ≠ 8 := by
  refine ⟨rfl, by decide⟩

/-! ## Step-failure diagnostics (claim C9) -/

/-- Value of the local `results` list at the moment the step-3 `hard_click`
raises (src/main.py line 415): the Open URL and Step 2 entries appended
before it.  This list is local to `run_once`; when the exception
propagates it is dropped, so nothing of it reaches the caller. -/
def resultsAtStep3Raise (env : WorkflowEnv) : List StepResult :=
  [⟨"Open URL", "OK", env.url⟩, ⟨"Step 2", "OK", ""⟩]

/-- Run oracle failing at step 3, first of two runs differing only in the
url (hence in the accumulated `results` prefix). -/
def envS3u1 : WorkflowEnv :=
  { envFastOk with url := "u1", step3 := some (PErr.timeout "img") }

/-- Same step-3 failure with a different url, hence a different accumulated
`results` prefix. -/
def envS3u2 : WorkflowEnv := { envS3u1 with url := "u2" }

/-- The `hard_click` (or fast-path click) call at which a run can first
fail, covering every step of the workflow after the initial navigation. -/
inductive FailStep where
  | step2
  | step3
  | step4
  | fastClick
  | step5
  | step6
  | step7
  | step8
deriving DecidableEq, Repr

/-- The human-readable label of the failing `hard_click` call, as passed to
`hard_click` in src/main.py (the fast-path click and step 8 share the
label "Get Link final"). -/
def failDesc : FailStep → String
  | FailStep.step2 => "human verification (mtc2)"
  | FailStep.step3 => "generate link (mtc2)"
  | FailStep.step4 => "download link (mtc2)"
  | FailStep.fastClick => "Get Link final"
  | FailStep.step5 => "human verification (mtc1)"
  | FailStep.step6 => "generate link (mtc1)"
  | FailStep.step7 => "download link (mtc1)"
  | FailStep.step8 => "Get Link final"

/-- The run oracle `env` reaches the given call and fails there with `e`:
every interaction executed before it succeeds, the step-5 race selects
the branch the call lies on, and the call's own outcome is `some e`. -/
def failsFirstAt : FailStep → WorkflowEnv → PErr → Prop
  | FailStep.step2, env, e => env.step2 = some e
  | FailStep.step3, env, e => env.step2 = none ∧ env.step3 = some e
  | FailStep.step4, env, e => env.step2 = none ∧ env.step3 = none ∧ env.step4 = some e
  | FailStep.fastClick, env, e =>
      env.step2 = none ∧ env.step3 = none ∧ env.step4 = none ∧
      (∃ w, raceDecision env.gRes env.s5Res env.tg env.ts env.doneOrder =
        BranchOutcome.fastPath w) ∧
      env.fastClick = some e
  | FailStep.step5, env, e =>
      env.step2 = none ∧ env.step3 = none ∧ env.step4 = none ∧
      (∃ w, raceDecision env.gRes env.s5Res env.tg env.ts env.doneOrder =
        BranchOutcome.verifyPath w) ∧
      env.step5 = some e
  | FailStep.step6, env, e =>
      env.step2 = none ∧ env.step3 = none ∧ env.step4 = none ∧
      (∃ w, raceDecision env.gRes env.s5Res env.tg env.ts env.doneOrder =
        BranchOutcome.verifyPath w) ∧
      env.step5 = none ∧ env.step6 = some e
  | FailStep.step7, env, e =>
      env.step2 = none ∧ env.step3 = none ∧ env.step4 = none ∧
      (∃ w, raceDecision env.gRes env.s5Res env.tg env.ts env.doneOrder =
        BranchOutcome.verifyPath w) ∧
      env.step5 = none ∧ env.step6 = none ∧ env.step7 = some e
  | FailStep.step8, env, e =>
      env.step2 = none ∧ env.step3 = none ∧ env.step4 = none ∧
      (∃ w, raceDecision env.gRes env.s5Res env.tg env.ts env.doneOrder =
        BranchOutcome.verifyPath w) ∧
      env.step5 = none ∧ env.step6 = none ∧ env.step7 = none ∧ env.step8 = some e

/-- Agreement on the session-setup and navigation inputs of a run. -/
def coreAgree (env env' : WorkflowEnv) : Prop :=
  env'.url = env.url ∧ env'.launchOk = env.launchOk ∧
  env'.contextOk = env.contextOk ∧ env'.gotoOk = env.gotoOk

/-- Agreement on the step-5 race behaviour of a run. -/
def raceAgree (env env' : WorkflowEnv) : Prop :=
  env'.gRes = env.gRes ∧ env'.s5Res = env.s5Res ∧ env'.tg = env.tg ∧
  env'.ts = env.ts ∧ env'.doneOrder = env.doneOrder

/-- `env'` agrees with `env` on every interaction executed up to and
including the given call; all of the run's later interaction outcomes
are unconstrained. -/
def agreesUpTo : FailStep → WorkflowEnv → WorkflowEnv → Prop
  | FailStep.step2, env, env' => coreAgree env env' ∧ env'.step2 = env.step2
  | FailStep.step3, env, env' =>
      coreAgree env env' ∧ env'.step2 = env.step2 ∧ env'.step3 = env.step3
  | FailStep.step4, env, env' =>
      coreAgree env env' ∧ env'.step2 = env.step2 ∧ env'.step3 = env.step3 ∧
      env'.step4 = env.step4
  | FailStep.fastClick, env, env' =>
      coreAgree env env' ∧ env'.step2 = env.step2 ∧ env'.step3 = env.step3 ∧
      env'.step4 = env.step4 ∧ raceAgree env env' ∧ env'.fastClick = env.fastClick
  | FailStep.step5, env, env' =>
      coreAgree env env' ∧ env'.step2 = env.step2 ∧ env'.step3 = env.step3 ∧
      env'.step4 = env.step4 ∧ raceAgree env env' ∧ env'.step5 = env.step5
  | FailStep.step6, env, env' =>
      coreAgree env env' ∧ env'.step2 = env.step2 ∧ env'.step3 = env.step3 ∧
      env'.step4 = env.step4 ∧ raceAgree env env' ∧ env'.step5 = env.step5 ∧
      env'.step6 = env.step6
  | FailStep.step7, env, env' =>
      coreAgree env env' ∧ env'.step2 = env.step2 ∧ env'.step3 = env.step3 ∧
      env'.step4 = env.step4 ∧ raceAgree env env' ∧ env'.step5 = env.step5 ∧
      env'.step6 = env.step6 ∧ env'.step7 = env.step7
  | FailStep.step8, env, env' =>
      coreAgree env env' ∧ env'.step2 = env.step2 ∧ env'.step3 = env.step3 ∧
      env'.step4 = env.step4 ∧ raceAgree env env' ∧ env'.step5 = env.step5 ∧
      env'.step6 = env.step6 ∧ env'.step7 = env.step7 ∧ env'.step8 = env.step8

theorem agreesUpTo_refl (p : FailStep) (env : WorkflowEnv) :
    agreesUpTo p env env := by
  cases p <;> simp [agreesUpTo, coreAgree, raceAgree]

/-- Claim C9 (amended): for every run in which some step fails — the
failing call `p` ranging over step 2 through step 8 and the fast-path
click, the error and all later interaction outcomes arbitrary — the
remaining steps are never attempted (every run agreeing on the executed
prefix produces the very same failure, whatever its later outcomes), the
underlying Interaction Engine error propagates as the run's failure, and
the worker records only that error's message: the accumulated StepOutcome
prefix is discarded with the local `results` list rather than preserved. -/
theorem step_failure_aborts_and_propagates (p : FailStep) (env : WorkflowEnv)
    (e : PErr) (hl : env.launchOk = true) (hc : env.contextOk = true)
    (hg : env.gotoOk = true) (hfail : failsFirstAt p env e) :
    run_once env = Except.error (RunErr.clickError (failDesc p) e) ∧
    (∀ env', agreesUpTo p env env' →
      run_once env' = Except.error (RunErr.clickError (failDesc p) e)) ∧
    (∀ st : WorkerState, ∃ st',
      runnerIteration st env.url (run_once env) = IterStep.continued st' ∧
      st'.failures = st.failures + 1 ∧ st'.status = "error/restarting" ∧
      st'.lastDetail = errMsg (RunErr.clickError (failDesc p) e)) := by
  have hA : ∀ env', agreesUpTo p env env' →
      run_once env' = Except.error (RunErr.clickError (failDesc p) e) := by
    cases p with
    | step2 =>
      simp only [failsFirstAt] at hfail
      rintro ⟨url', lOk', cOk', gOk', s2', s3', s4', gR', sR', wg', ws', ord', fc',
        s5', s6', s7', s8'⟩ hag
      simp only [agreesUpTo, coreAgree] at hag
      obtain ⟨⟨hu, hlk, hck, hgk⟩, e2⟩ := hag
      subst hu hlk hck hgk e2
      simp [run_once, failDesc, hl, hc, hg, hfail]
    | step3 =>
      simp only [failsFirstAt] at hfail
      obtain ⟨h2, h3⟩ := hfail
      rintro ⟨url', lOk', cOk', gOk', s2', s3', s4', gR', sR', wg', ws', ord', fc',
        s5', s6', s7', s8'⟩ hag
      simp only [agreesUpTo, coreAgree] at hag
      obtain ⟨⟨hu, hlk, hck, hgk⟩, e2, e3⟩ := hag
      subst hu hlk hck hgk e2 e3
      simp [run_once, failDesc, hl, hc, hg, h2, h3]
    | step4 =>
      simp only [failsFirstAt] at hfail
      obtain ⟨h2, h3, h4⟩ := hfail
      rintro ⟨url', lOk', cOk', gOk', s2', s3', s4', gR', sR', wg', ws', ord', fc',
        s5', s6', s7', s8'⟩ hag
      simp only [agreesUpTo, coreAgree] at hag
      obtain ⟨⟨hu, hlk, hck, hgk⟩, e2, e3, e4⟩ := hag
      subst hu hlk hck hgk e2 e3 e4
      simp [run_once, failDesc, hl, hc, hg, h2, h3, h4]
    | fastClick =>
      simp only [failsFirstAt] at hfail
      obtain ⟨h2, h3, h4, ⟨w, hw⟩, hfc⟩ := hfail
      rintro ⟨url', lOk', cOk', gOk', s2', s3', s4', gR', sR', wg', ws', ord', fc',
        s5', s6', s7', s8'⟩ hag
      simp only [agreesUpTo, coreAgree, raceAgree] at hag
      obtain ⟨⟨hu, hlk, hck, hgk⟩, e2, e3, e4, ⟨eg, es, etg, ets, eord⟩, efc⟩ := hag
      subst hu hlk hck hgk e2 e3 e4 eg es etg ets eord efc
      simp [run_once, failDesc, hl, hc, hg, h2, h3, h4, hw, hfc]
    | step5 =>
      simp only [failsFirstAt] at hfail
      obtain ⟨h2, h3, h4, ⟨w, hw⟩, h5⟩ := hfail
      rintro ⟨url', lOk', cOk', gOk', s2', s3', s4', gR', sR', wg', ws', ord', fc',
        s5', s6', s7', s8'⟩ hag
      simp only [agreesUpTo, coreAgree, raceAgree] at hag
      obtain ⟨⟨hu, hlk, hck, hgk⟩, e2, e3, e4, ⟨eg, es, etg, ets, eord⟩, e5⟩ := hag
      subst hu hlk hck hgk e2 e3 e4 eg es etg ets eord e5
      simp [run_once, failDesc, hl, hc, hg, h2, h3, h4, hw, h5]
    | step6 =>
      simp only [failsFirstAt] at hfail
      obtain ⟨h2, h3, h4, ⟨w, hw⟩, h5, h6⟩ := hfail
      rintro ⟨url', lOk', cOk', gOk', s2', s3', s4', gR', sR', wg', ws', ord', fc',
        s5', s6', s7', s8'⟩ hag
      simp only [agreesUpTo, coreAgree, raceAgree] at hag
      obtain ⟨⟨hu, hlk, hck, hgk⟩, e2, e3, e4, ⟨eg, es, etg, ets, eord⟩, e5, e6⟩ := hag
      subst hu hlk hck hgk e2 e3 e4 eg es etg ets eord e5 e6
      simp [run_once, failDesc, hl, hc, hg, h2, h3, h4, hw, h5, h6]
    | step7 =>
      simp only [failsFirstAt] at hfail
      obtain ⟨h2, h3, h4, ⟨w, hw⟩, h5, h6, h7⟩ := hfail
      rintro ⟨url', lOk', cOk', gOk', s2', s3', s4', gR', sR', wg', ws', ord', fc',
        s5', s6', s7', s8'⟩ hag
      simp only [agreesUpTo, coreAgree, raceAgree] at hag
      obtain ⟨⟨hu, hlk, hck, hgk⟩, e2, e3, e4, ⟨eg, es, etg, ets, eord⟩, e5, e6, e7⟩ := hag
      subst hu hlk hck hgk e2 e3 e4 eg es etg ets eord e5 e6 e7
      simp [run_once, failDesc, hl, hc, hg, h2, h3, h4, hw, h5, h6, h7]
    | step8 =>
      simp only [failsFirstAt] at hfail
      obtain ⟨h2, h3, h4, ⟨w, hw⟩, h5, h6, h7, h8⟩ := hfail
      rintro ⟨url', lOk', cOk', gOk', s2', s3', s4', gR', sR', wg', ws', ord', fc',
        s5', s6', s7', s8'⟩ hag
      simp only [agreesUpTo, coreAgree, raceAgree] at hag
      obtain ⟨⟨hu, hlk, hck, hgk⟩, e2, e3, e4, ⟨eg, es, etg, ets, eord⟩,
        e5, e6, e7, e8⟩ := hag
      subst hu hlk hck hgk e2 e3 e4 eg es etg ets eord e5 e6 e7 e8
      simp [run_once, failDesc, hl, hc, hg, h2, h3, h4, hw, h5, h6, h7, h8]
  have hself : run_once env = Except.error (RunErr.clickError (failDesc p) e) :=
    hA env (agreesUpTo_refl p env)
  refine ⟨hself, hA, fun st => ?_⟩
  rw [hself]
  exact ⟨_, rfl, rfl, rfl, rfl⟩

/-- Run oracle failing at step 5 of the verify path, every earlier
interaction succeeding. -/
def envS5fail : WorkflowEnv := { envFullOk with step5 := some (PErr.timeout "v") }

/-- Witness for C9: a concrete step-5 timeout aborts the run with that very
error even if the step-6/7/8 clicks and the fast-path click would all
have failed, and the worker books one failure whose detail is the
error message. -/
theorem step_failure_aborts_and_propagates_witness :
    run_once envS5fail =
      Except.error (RunErr.clickError "human verification (mtc1)" (PErr.timeout "v")) ∧
    run_once { envS5fail with
        fastClick := some (PErr.timeout "f"), step6 := some (PErr.timeout "x"),
        step7 := some (PErr.timeout "y"), step8 := some (PErr.timeout "z") } =
      Except.error (RunErr.clickError "human verification (mtc1)" (PErr.timeout "v")) ∧
    (∃ st', runnerIteration {} "u" (run_once envS5fail) = IterStep.continued st' ∧
      st'.failures = (0 : Nat) + 1 ∧ st'.status = "error/restarting" ∧
      st'.lastDetail =
        errMsg (RunErr.clickError "human verification (mtc1)" (PErr.timeout "v"))) := by
  have H := step_failure_aborts_and_propagates FailStep.step5 envS5fail
    (PErr.timeout "v") rfl rfl rfl
    ⟨rfl, rfl, rfl, ⟨"a#wpsafelinkhuman", rfl⟩, rfl⟩
  exact ⟨H.1, H.2.1 _ (by simp [agreesUpTo, coreAgree, raceAgree]), H.2.2 {}⟩

/-- Counterexample for C9: two failing runs whose accumulated StepOutcome
prefixes differ (different url in the Open URL entry) are observationally
identical — `run_once` returns the very same error value, with no step
sequence attached — so the accumulated sequence is discarded, not
preserved for diagnostics. -/
theorem step_failure_discards_results :
    resultsAtStep3Raise envS3u1 ≠ resultsAtStep3Raise envS3u2 ∧
    run_once envS3u1 = run_once envS3u2 ∧
    run_once envS3u1 =
      Except.error (RunErr.clickError "generate link (mtc2)" (PErr.timeout "img")) := by
  refine ⟨by decide, rfl, rfl⟩

/-! ## Worker-boundary claims -/

/-- Claim C4: the worker loop's `except Exception` converts every
`Exception`-derived run failure into a failure-count increment with
status `error/restarting`, but the claim that a worker task never
terminates on its own is wrong on the code: the race block's
`CancelledError` (see `race_neither_visible_outcomes`) passes the
`except Exception` clause uncaught and ends the worker task, counters
untouched.  This theorem evaluates the worker boundary at that failing
input, contrasted with an `Exception`-derived failure of the same shape. -/
theorem worker_terminates_on_cancelled_escape :
    runnerIteration {} "u" (run_once envNeitherSkew) =
      IterStep.terminatedWorker { status := "running", lastUrl := "u" } ∧
    runnerIteration {} "u" (Except.error (RunErr.branchUndetermined none none)) =
      IterStep.continued {
        runs := 1, failures := 1, status := "error/restarting",
        lastUrl := "u",
        lastDetail := errMsg (RunErr.branchUndetermined none none) } := by
  refine ⟨rfl, rfl⟩

/-- Claim C10 (confirmed): starting from counters satisfying
`runs = successes + failures`, one worker iteration preserves the
invariant; an iteration that continues the loop increments `runs` by
exactly 1 and exactly one of `successes`/`failures` by exactly 1, never
both, while the (buggy) terminating iteration leaves all three counters
untouched. -/
theorem worker_counters_invariant (st : WorkerState) (url : String)
    (out : Except RunErr (List StepResult))
    (hinv : st.runs = st.successes + st.failures) :
    (∀ st', runnerIteration st url out = IterStep.continued st' →
      st'.runs = st'.successes + st'.failures ∧ st'.runs = st.runs + 1 ∧
      ((st'.successes = st.successes + 1 ∧ st'.failures = st.failures) ∨
       (st'.failures = st.failures + 1 ∧ st'.successes = st.successes))) ∧
    (∀ st', runnerIteration st url out = IterStep.terminatedWorker st' →
      st'.runs = st'.successes + st'.failures ∧ st'.runs = st.runs ∧
      st'.successes = st.successes ∧ st'.failures = st.failures) := by
  constructor
  · intro st' h
    cases out with
    | ok results =>
      rw [runnerIteration] at h
      obtain rfl := (IterStep.continued.injEq _ _).mp h
      refine ⟨by simp; omega, by simp, Or.inl ⟨rfl, rfl⟩⟩
    | error e =>
      rw [runnerIteration] at h
      by_cases he : isExceptionDerived e
      · rw [if_pos he] at h
        obtain rfl := (IterStep.continued.injEq _ _).mp h
        refine ⟨by simp; omega, by simp, Or.inr ⟨rfl, rfl⟩⟩
      · rw [if_neg he] at h
        exact absurd h (by simp)
  · intro st' h
    cases out with
    | ok results =>
      rw [runnerIteration] at h
      exact absurd h (by simp)
    | error e =>
      rw [runnerIteration] at h
      by_cases he : isExceptionDerived e
      · rw [if_pos he] at h
        exact absurd h (by simp)
      · rw [if_neg he] at h
        obtain rfl := (IterStep.terminatedWorker.injEq _ _).mp h
        exact ⟨hinv, rfl, rfl, rfl⟩

/-- State of a fresh worker after one successful Scenario-A iteration. -/
def stAfterOneSuccess : WorkerState :=
  { runs := 1, successes := 1, failures := 0, status := "idle",
    lastUrl := "u", lastDetail := "Elapsed" }

/-- Witness for C10: one successful iteration from fresh counters ends with
`runs = 1 = successes + failures`, having bumped `runs` and `successes`
by exactly 1. -/
theorem worker_counters_invariant_witness :
    stAfterOneSuccess.runs = stAfterOneSuccess.successes + stAfterOneSuccess.failures ∧
    stAfterOneSuccess.runs = ({} : WorkerState).runs + 1 ∧
    ((stAfterOneSuccess.successes = ({} : WorkerState).successes + 1 ∧
        stAfterOneSuccess.failures = ({} : WorkerState).failures) ∨
     (stAfterOneSuccess.failures = ({} : WorkerState).failures + 1 ∧
        stAfterOneSuccess.successes = ({} : WorkerState).successes)) :=
  (worker_counters_invariant {} "u" (run_once envFullOk) rfl).1 stAfterOneSuccess rfl

/-! ## Session teardown claim -/

/-- Claim C5 (confirmed): on every exit path of `run_once` — success, any
step failure, and the uncaught cancellation alike — the `finally` block
closes each opened handle exactly once, context first and browser
second, and the emitted close attempts are unchanged when either
`close()` call fails (each attempt is wrapped in its own
`contextlib.suppress(Exception)`). -/
theorem session_closed_exactly_once (env : WorkflowEnv) (cF bF : Bool) :
    ((run_once_traced env cF bF).2.count CloseEvent.closeContext =
      if env.launchOk && env.contextOk then 1 else 0) ∧
    ((run_once_traced env cF bF).2.count CloseEvent.closeBrowser =
      if env.launchOk then 1 else 0) ∧
    (env.launchOk = true → env.contextOk = true →
      (run_once_traced env cF bF).2 = [CloseEvent.closeContext, CloseEvent.closeBrowser]) ∧
    (run_once_traced env cF bF).2 = (run_once_traced env false false).2 := by
  obtain ⟨url, lOk, cOk, gOk, s2, s3, s4, gR, sR, tg, ts, ord, fc, s5, s6, s7, s8⟩ := env
  cases lOk <;> cases cOk <;>
    simp [run_once_traced, runOnceCleanup, closeAction, suppressExc, List.count] <;>
    decide

/-- Witness for C5: a run whose launch and context setup both succeeded
closes the context and then the browser, once each, even when the
context close itself fails. -/
theorem session_closed_exactly_once_witness :
    (run_once_traced envFullOk true false).2 =
      [CloseEvent.closeContext, CloseEvent.closeBrowser] :=
  (session_closed_exactly_once envFullOk true false).2.2.1 rfl rfl

end SoftAuto
